import Mathlib

/-!
Verification development for the job-analytics dashboard.

The development shallowly embeds the range-resolution and metric-derivation
logic of the repository:

- namespace Api: the helpers of lib/api.ts (getSummaryForRange,
  getBreakdownsForRange) and the comparison engine of the types/api module
  (getThisWeekAndLastWeekRanges, fetchWeekComparison).
- namespace Page: the page-level derivation hooks of app/page.tsx
  (trendData, totalClicksForSelectedRange, topJobs, locationBreakdown,
  jobCategoryBreakdown, handleApplyRange, fetchAll) as pure functions over
  an explicit component state, with network results passed in as values.

JavaScript number fields carrying click counts are modelled as Nat,
Record string-to-number objects as association lists, optional fields as
Option, nullable state as Option, and thrown exceptions as Except. The
ambient wall clock used for the today / yesterday date strings is threaded
in as explicit string parameters.
-/

namespace Api

/-- A single shortened-URL record, from the TopPerformer type of lib/api.ts. -/
structure TopPerformer where
  shortCode : String
  clicks : Nat
  jobTitle : String
  location : String
  originalUrl : String
deriving DecidableEq

/-- A clicks / uniqueUrls pair, the common shape of the per-range summary
records of lib/api.ts. -/
structure MetricPair where
  clicks : Nat
  uniqueUrls : Nat
deriving DecidableEq

/-- The thisWeek record of SummaryResponse.data: the topPerformers field is
optional in the source, hence Option here. -/
structure ThisWeekSummary where
  clicks : Nat
  uniqueUrls : Nat
  topPerformers : Option (List TopPerformer)
deriving DecidableEq

/-- The thisMonth record of SummaryResponse.data, with its three optional
fields. -/
structure ThisMonthSummary where
  clicks : Nat
  uniqueUrls : Nat
  topPerformers : Option (List TopPerformer)
  locationBreakdown : Option (List (String × Nat))
  jobTitleBreakdown : Option (List (String × Nat))
deriving DecidableEq

/-- SummaryResponse.data of lib/api.ts. -/
structure SummaryData where
  today : MetricPair
  yesterday : MetricPair
  thisWeek : ThisWeekSummary
  thisMonth : ThisMonthSummary
deriving DecidableEq

/-- One day of a rollup, from the DailyBreakdown type of lib/api.ts. -/
structure DailyBreakdown where
  date : String
  totalClicks : Nat
  uniqueUrls : Nat
  topShortCodes : List TopPerformer
  locationBreakdown : List (String × Nat)
  jobTitleBreakdown : List (String × Nat)
deriving DecidableEq

/-- WeeklyResponse.data of lib/api.ts; monthly and range responses share the
same shape. -/
structure WeeklyData where
  totalClicks : Nat
  uniqueUrls : Nat
  dailyBreakdown : List DailyBreakdown
  topPerformers : List TopPerformer
  locationBreakdown : List (String × Nat)
  jobTitleBreakdown : List (String × Nat)
deriving DecidableEq

/-- Monthly data has the same shape as weekly data, as in lib/api.ts. -/
abbrev MonthlyData := WeeklyData

/-- Range data has the same shape as weekly data, as in lib/api.ts. -/
abbrev RangeData := WeeklyData

/-- The TimeRange union of lib/api.ts. -/
inductive TimeRange where
  | today
  | yesterday
  | thisWeek
  | thisMonth
deriving DecidableEq

/-- getSummaryForRange of lib/api.ts. The source returns the per-range record
of the summary; this embedding projects the clicks / uniqueUrls pair, which is
the whole record for today and yesterday and the totals part for the two wider
ranges. A missing summary yields the zero pair. -/
def getSummaryForRange (summary : Option SummaryData) (range : TimeRange) :
    MetricPair :=
  match summary with
  | none => ⟨0, 0⟩
  | some s =>
    match range with
    | .today => s.today
    | .yesterday => s.yesterday
    | .thisWeek => ⟨s.thisWeek.clicks, s.thisWeek.uniqueUrls⟩
    | .thisMonth => ⟨s.thisMonth.clicks, s.thisMonth.uniqueUrls⟩

/-- One point of the trend series built by getBreakdownsForRange. -/
structure TrendPoint where
  date : String
  totalClicks : Nat
deriving DecidableEq

/-- The record returned by getBreakdownsForRange of lib/api.ts. -/
structure Breakdowns where
  locationBreakdown : List (String × Nat)
  jobTitleBreakdown : List (String × Nat)
  topPerformers : List TopPerformer
  trendData : List TrendPoint
deriving DecidableEq

/-- The dailyBreakdown.map projection to date and totalClicks used by
getBreakdownsForRange for the trend series. -/
def projectTrend (l : List DailyBreakdown) : List TrendPoint :=
  l.map fun d => ⟨d.date, d.totalClicks⟩

/-- The targetDate expression of the drill-down block: the today string for
range today, the yesterday string otherwise (the block only runs for today or
yesterday). -/
def drillTarget (range : TimeRange) (todayStr yesterdayStr : String) : String :=
  if range = .today then todayStr else yesterdayStr

/-- The drill-down step of getBreakdownsForRange: find the daily entry whose
date equals the target; if found, override the three drill-down fields with
the values of that day, otherwise keep the week-level record. -/
def drill (w : WeeklyData) (b : Breakdowns) (target : String) : Breakdowns :=
  match w.dailyBreakdown.find? (fun d => d.date == target) with
  | some day =>
    { b with
      locationBreakdown := day.locationBreakdown
      jobTitleBreakdown := day.jobTitleBreakdown
      topPerformers := day.topShortCodes }
  | none => b

/-- The weekly branch of getBreakdownsForRange: week-level values plus the
full-week trend projection, then the drill-down for today or yesterday. With
weekly absent everything stays at the empty defaults. -/
def weeklyBase (weekly : Option WeeklyData) (range : TimeRange)
    (todayStr yesterdayStr : String) : Breakdowns :=
  match weekly with
  | none => ⟨[], [], [], []⟩
  | some w =>
    let b : Breakdowns :=
      ⟨w.locationBreakdown, w.jobTitleBreakdown, w.topPerformers,
        projectTrend w.dailyBreakdown⟩
    match range with
    | .today => drill w b todayStr
    | .yesterday => drill w b yesterdayStr
    | _ => b

/-- The branch structure of getBreakdownsForRange before the summary
override: the monthly branch fires only for range thisMonth with monthly
present; everything else goes through the weekly branch. -/
def baseBreakdowns (weekly monthly : Option WeeklyData) (range : TimeRange)
    (todayStr yesterdayStr : String) : Breakdowns :=
  match range with
  | .thisMonth =>
    match monthly with
    | some m =>
      ⟨m.locationBreakdown, m.jobTitleBreakdown, m.topPerformers,
        projectTrend m.dailyBreakdown⟩
    | none => weeklyBase weekly range todayStr yesterdayStr
  | _ => weeklyBase weekly range todayStr yesterdayStr

/-- The final summary override of getBreakdownsForRange: a present
topPerformers field of summary.thisWeek (respectively summary.thisMonth)
replaces the top-performer list when the range is thisWeek (respectively
thisMonth). In the source the guard is JavaScript truthiness of the optional
array field, so any present list (empty included) fires the override. -/
def applySummaryOverride (summary : Option SummaryData) (range : TimeRange)
    (b : Breakdowns) : Breakdowns :=
  match summary with
  | none => b
  | some s =>
    let b1 :=
      match range with
      | .thisWeek =>
        match s.thisWeek.topPerformers with
        | some tp => { b with topPerformers := tp }
        | none => b
      | _ => b
    match range with
    | .thisMonth =>
      match s.thisMonth.topPerformers with
      | some tp => { b1 with topPerformers := tp }
      | none => b1
    | _ => b1

/-- getBreakdownsForRange of lib/api.ts, with the wall-clock date strings
threaded in explicitly. -/
def getBreakdownsForRange (weekly monthly : Option WeeklyData)
    (summary : Option SummaryData) (range : TimeRange)
    (todayStr yesterdayStr : String) : Breakdowns :=
  applySummaryOverride summary range
    (baseBreakdowns weekly monthly range todayStr yesterdayStr)

/-- The success envelope of the weekly, monthly and range endpoints. -/
structure WeeklyResponse where
  success : Bool
  data : WeeklyData
deriving DecidableEq

/-- The range endpoint shares the weekly envelope shape. -/
abbrev RangeResponse := WeeklyResponse

/-- The paired result of fetchWeekComparison. -/
structure WeekComparison where
  current : WeeklyData
  previous : WeeklyData
deriving DecidableEq

/-- fetchWeekComparison of the api module: the two concurrent range fetches
are passed in as results; a rejected leg rejects the whole operation, a
resolved pair with either success flag false throws the comparison error,
and only a doubly successful pair yields the current / previous data pair. -/
def fetchWeekComparison (currentRes previousRes : Except String RangeResponse) :
    Except String WeekComparison :=
  match currentRes, previousRes with
  | .error e, _ => .error e
  | .ok _, .error e => .error e
  | .ok c, .ok p =>
    if c.success && p.success then
      .ok ⟨c.data, p.data⟩
    else
      .error "Failed to fetch week comparison"

end Api

namespace DateUtil

/-- A calendar date, standing for a JavaScript Date at the granularity the
week-range helper observes (year, month 1..12, day of month). -/
structure CivilDate where
  year : Nat
  month : Nat
  day : Nat
deriving DecidableEq

/-- Gregorian leap-year rule, as implemented by JavaScript Date rollover. -/
def isLeapYear (y : Nat) : Bool :=
  (y % 4 == 0 && y % 100 != 0) || y % 400 == 0

/-- Number of days of a month, leap years included. -/
def daysInMonth (y m : Nat) : Nat :=
  if m = 2 then (if isLeapYear y then 29 else 28)
  else if m = 4 ∨ m = 6 ∨ m = 9 ∨ m = 11 then 30
  else 31

/-- The previous calendar day, borrowing from the previous month or year when
the day of month underflows — the rollover JavaScript setDate performs. -/
def prevDay (d : CivilDate) : CivilDate :=
  if 1 < d.day then ⟨d.year, d.month, d.day - 1⟩
  else if 1 < d.month then ⟨d.year, d.month - 1, daysInMonth d.year (d.month - 1)⟩
  else ⟨d.year - 1, 12, 31⟩

/-- Subtract a number of calendar days; date.setDate(date.getDate() - n) of
the source is subDays date n. -/
def subDays (d : CivilDate) : Nat → CivilDate
  | 0 => d
  | n + 1 => prevDay (subDays d n)

/-- Two-digit zero padding of the month and day components. -/
def pad2 (n : Nat) : String :=
  if n < 10 then "0" ++ toString n else toString n

/-- Four-digit zero padding of the year component. -/
def pad4 (n : Nat) : String :=
  if n < 10 then "000" ++ toString n
  else if n < 100 then "00" ++ toString n
  else if n < 1000 then "0" ++ toString n
  else toString n

/-- formatDate of the api module: the YYYY-MM-DD projection of a date. -/
def formatDate (d : CivilDate) : String :=
  pad4 d.year ++ "-" ++ pad2 d.month ++ "-" ++ pad2 d.day

/-- A startDate / endDate pair of formatted dates. -/
structure DateRange where
  startDate : String
  endDate : String
deriving DecidableEq

/-- The current / previous pair returned by getThisWeekAndLastWeekRanges. -/
structure WeekRanges where
  current : DateRange
  previous : DateRange
deriving DecidableEq

/-- getThisWeekAndLastWeekRanges of the api module: rolling 7-day windows.
currentEnd is the reference date, currentStart six days before it, prevEnd
one day before currentStart and prevStart six days before prevEnd. -/
def getThisWeekAndLastWeekRanges (today : CivilDate) : WeekRanges :=
  let currentEnd := today
  let currentStart := subDays today 6
  let prevEnd := subDays currentStart 1
  let prevStart := subDays prevEnd 6
  ⟨⟨formatDate currentStart, formatDate currentEnd⟩,
    ⟨formatDate prevStart, formatDate prevEnd⟩⟩

end DateUtil

namespace Page

/-- The JobPerformer type of app/page.tsx, identical in shape to the api
TopPerformer. -/
abbrev JobPerformer := Api.TopPerformer

/-- The thisWeek record of the page-level SummaryData: topPerformers is
required in the page type. -/
structure ThisWeekS where
  clicks : Nat
  uniqueUrls : Nat
  topPerformers : List JobPerformer
deriving DecidableEq

/-- The thisMonth record of the page-level SummaryData, with its two optional
breakdown maps. -/
structure ThisMonthS where
  clicks : Nat
  uniqueUrls : Nat
  topPerformers : List JobPerformer
  locationBreakdown : Option (List (String × Nat))
  jobTitleBreakdown : Option (List (String × Nat))
deriving DecidableEq

/-- The page-level SummaryData type of app/page.tsx. -/
structure SummaryData where
  today : Api.MetricPair
  yesterday : Api.MetricPair
  thisWeek : ThisWeekS
  thisMonth : ThisMonthS
deriving DecidableEq

/-- One dailyBreakdown entry of the page-level WeeklyData: a WeeklyDay plus
the per-day breakdown maps and short codes. -/
structure WeeklyDayFull where
  date : String
  totalClicks : Nat
  uniqueUrls : Nat
  locationBreakdown : List (String × Nat)
  jobTitleBreakdown : List (String × Nat)
  topShortCodes : List JobPerformer
deriving DecidableEq

/-- The page-level WeeklyData type: topPerformers is optional here. -/
structure WeeklyData where
  totalClicks : Nat
  uniqueUrls : Nat
  dailyBreakdown : List WeeklyDayFull
  locationBreakdown : List (String × Nat)
  jobTitleBreakdown : List (String × Nat)
  topPerformers : Option (List JobPerformer)
deriving DecidableEq

/-- Monthly data shares the weekly shape, as in app/page.tsx. -/
abbrev MonthlyData := WeeklyData

/-- Range data shares the weekly shape, as in app/page.tsx. -/
abbrev RangeData := WeeklyData

/-- The SelectedRange union of app/page.tsx, identical to the api TimeRange. -/
abbrev SelectedRange := Api.TimeRange

/-- The success envelope of the range, weekly and monthly responses as the
page consumes them. -/
structure RollupResponse where
  success : Bool
  data : WeeklyData
deriving DecidableEq

/-- The success envelope of the summary response as the page consumes it. -/
structure SummaryResponse where
  success : Bool
  data : SummaryData
deriving DecidableEq

/-- The component state of the page of app/page.tsx: the four dataset slots,
the selected range, the custom-range machinery and the date inputs. -/
structure PageState where
  summary : Option SummaryData
  weekly : Option WeeklyData
  monthly : Option MonthlyData
  selectedRange : SelectedRange
  rangeData : Option RangeData
  usingRange : Bool
  rangeLoading : Bool
  rangeError : Option String
  startDate : String
  endDate : String
deriving DecidableEq

/-- The trendData memo of app/page.tsx. An active custom range returns the
range dailyBreakdown; otherwise today and yesterday filter the weekly series
to the matching date, thisWeek returns the weekly series, and thisMonth
prefers monthly over weekly. -/
def trendData (s : PageState) (todayISO yesterdayISO : String) :
    List WeeklyDayFull :=
  match s.usingRange, s.rangeData with
  | true, some rd => rd.dailyBreakdown
  | _, _ =>
    match s.weekly, s.monthly with
    | none, none => []
    | _, _ =>
      match s.selectedRange, s.weekly with
      | .today, some w => w.dailyBreakdown.filter (fun d => d.date == todayISO)
      | .yesterday, some w =>
        w.dailyBreakdown.filter (fun d => d.date == yesterdayISO)
      | .thisWeek, some w => w.dailyBreakdown
      | .thisMonth, _ =>
        match s.monthly, s.weekly with
        | some m, _ => m.dailyBreakdown
        | none, some w => w.dailyBreakdown
        | none, none => []
      | _, none => []

/-- The totalClicksForSelectedRange memo of app/page.tsx. -/
def totalClicksForSelectedRange (s : PageState) : Nat :=
  match s.usingRange, s.rangeData with
  | true, some rd => rd.totalClicks
  | _, _ =>
    match s.summary with
    | none => 0
    | some sd =>
      match s.selectedRange with
      | .today => sd.today.clicks
      | .yesterday => sd.yesterday.clicks
      | .thisWeek => sd.thisWeek.clicks
      | .thisMonth => sd.thisMonth.clicks

/-- The topJobs memo of app/page.tsx. The source guards the optional weekly
list with truthiness and falls back to the empty list, which getD models. -/
def topJobs (s : PageState) : List JobPerformer :=
  match s.usingRange, s.rangeData with
  | true, some rd => rd.topPerformers.getD []
  | _, _ =>
    match s.summary with
    | none => []
    | some sd =>
      match s.selectedRange with
      | .thisWeek => sd.thisWeek.topPerformers
      | .thisMonth => sd.thisMonth.topPerformers
      | _ =>
        match s.weekly with
        | some w => w.topPerformers.getD []
        | none => []

/-- The tail of the locationBreakdown memo after the custom-range and
both-slots-empty guards, mirroring the sequential return statements of the
source. A today or yesterday drill-down that finds no matching day falls
through to the later branches. -/
def locationBreakdownRest (s : PageState) (todayISO yesterdayISO : String) :
    List (String × Nat) :=
  let drilled : Option (List (String × Nat)) :=
    match s.selectedRange, s.weekly with
    | .today, some w =>
      (w.dailyBreakdown.find? (fun d => d.date == todayISO)).map
        (fun day => day.locationBreakdown)
    | .yesterday, some w =>
      (w.dailyBreakdown.find? (fun d => d.date == yesterdayISO)).map
        (fun day => day.locationBreakdown)
    | _, _ => none
  match drilled with
  | some r => r
  | none =>
    match s.selectedRange, s.weekly with
    | .thisWeek, some w => w.locationBreakdown
    | _, _ =>
      let monthResult : Option (List (String × Nat)) :=
        match s.selectedRange with
        | .thisMonth =>
          match s.monthly with
          | some m => some m.locationBreakdown
          | none =>
            match s.summary with
            | some sd => sd.thisMonth.locationBreakdown
            | none => none
        | _ => none
      match monthResult with
      | some r => r
      | none =>
        match s.weekly with
        | some w => w.locationBreakdown
        | none =>
          match s.monthly with
          | some m => m.locationBreakdown
          | none => []

/-- The locationBreakdown memo of app/page.tsx. -/
def locationBreakdown (s : PageState) (todayISO yesterdayISO : String) :
    List (String × Nat) :=
  match s.usingRange, s.rangeData with
  | true, some rd => rd.locationBreakdown
  | _, _ =>
    match s.weekly, s.monthly with
    | none, none => []
    | _, _ => locationBreakdownRest s todayISO yesterdayISO

/-- The tail of the jobCategoryBreakdown memo, structured exactly like the
location one but over the jobTitleBreakdown fields. -/
def jobCategoryBreakdownRest (s : PageState) (todayISO yesterdayISO : String) :
    List (String × Nat) :=
  let drilled : Option (List (String × Nat)) :=
    match s.selectedRange, s.weekly with
    | .today, some w =>
      (w.dailyBreakdown.find? (fun d => d.date == todayISO)).map
        (fun day => day.jobTitleBreakdown)
    | .yesterday, some w =>
      (w.dailyBreakdown.find? (fun d => d.date == yesterdayISO)).map
        (fun day => day.jobTitleBreakdown)
    | _, _ => none
  match drilled with
  | some r => r
  | none =>
    match s.selectedRange, s.weekly with
    | .thisWeek, some w => w.jobTitleBreakdown
    | _, _ =>
      let monthResult : Option (List (String × Nat)) :=
        match s.selectedRange with
        | .thisMonth =>
          match s.monthly with
          | some m => some m.jobTitleBreakdown
          | none =>
            match s.summary with
            | some sd => sd.thisMonth.jobTitleBreakdown
            | none => none
        | _ => none
      match monthResult with
      | some r => r
      | none =>
        match s.weekly with
        | some w => w.jobTitleBreakdown
        | none =>
          match s.monthly with
          | some m => m.jobTitleBreakdown
          | none => []

/-- The jobCategoryBreakdown memo of app/page.tsx. -/
def jobCategoryBreakdown (s : PageState) (todayISO yesterdayISO : String) :
    List (String × Nat) :=
  match s.usingRange, s.rangeData with
  | true, some rd => rd.jobTitleBreakdown
  | _, _ =>
    match s.weekly, s.monthly with
    | none, none => []
    | _, _ => jobCategoryBreakdownRest s todayISO yesterdayISO

/-- The JavaScript string greater-than used on the two date inputs, written
as a computable lexicographic less-than on the underlying character lists;
this is exactly the standard String order. -/
def strLt (a b : String) : Bool := decide (a.data < b.data)

/-- handleApplyRange of app/page.tsx as a state transition. The fetch outcome
is passed in as a value and is consulted only when validation passes; the
second component counts the network calls the handler issued. Validation
failures return before the fetch with an error message; a resolved response
with success false, or a rejected fetch, clears the custom-range slot and
deactivates custom-range mode. -/
def handleApplyRange (s : PageState)
    (fetchResult : Except String RollupResponse) : PageState × Nat :=
  let s0 := { s with rangeError := none }
  if s0.startDate = "" ∨ s0.endDate = "" then
    ({ s0 with rangeError := some "Please select both start and end dates." }, 0)
  else if strLt s0.endDate s0.startDate then
    ({ s0 with rangeError := some "Start date cannot be after end date." }, 0)
  else
    match fetchResult with
    | .ok res =>
      if res.success then
        ({ s0 with
            rangeData := some res.data
            usingRange := true
            rangeLoading := false }, 1)
      else
        ({ s0 with
            rangeError := some "Range request failed."
            usingRange := false
            rangeData := none
            rangeLoading := false }, 1)
    | .error _ =>
      ({ s0 with
          rangeError := some "Could not load range data. Please try again."
          usingRange := false
          rangeData := none
          rangeLoading := false }, 1)

/-- The fetchAll effect of app/page.tsx as a state transition over the three
initial responses. A throw anywhere in the joint fetch-and-parse sequence
reaches the catch block before any slot is written; otherwise each slot is
written only when its own response carries success true. -/
def fetchAll (s : PageState)
    (result : Except String (SummaryResponse × RollupResponse × RollupResponse)) :
    PageState :=
  match result with
  | .error _ => s
  | .ok (sr, wr, mr) =>
    let s1 := if sr.success then { s with summary := some sr.data } else s
    let s2 := if wr.success then { s1 with weekly := some wr.data } else s1
    if mr.success then { s2 with monthly := some mr.data } else s2

end Page

/-! Concrete sample data used to instantiate the theorems. -/

def tpA : Api.TopPerformer := ⟨"aaa111", 10, "Driver", "Lagos", "https://example.com/a"⟩

def tpB : Api.TopPerformer := ⟨"bbb222", 99, "Nurse", "Abuja", "https://example.com/b"⟩

def dayA : Api.DailyBreakdown :=
  ⟨"2025-12-07", 5, 3, [tpA], [("Lagos", 5)], [("Driver", 5)]⟩

def dayB : Api.DailyBreakdown :=
  ⟨"2025-12-08", 7, 4, [tpB], [("Abuja", 7)], [("Nurse", 7)]⟩

def wEx : Api.WeeklyData :=
  ⟨12, 7, [dayA, dayB], [tpA], [("Lagos", 5), ("Abuja", 7)],
    [("Driver", 5), ("Nurse", 7)]⟩

def mEx : Api.WeeklyData := ⟨40, 20, [dayA], [tpA], [("Kano", 40)], [("Chef", 40)]⟩

def sEx : Api.SummaryData :=
  ⟨⟨7, 4⟩, ⟨5, 3⟩, ⟨12, 7, some [tpB]⟩, ⟨40, 20, some [tpB], none, none⟩⟩

def pdayA : Page.WeeklyDayFull :=
  ⟨"2025-12-07", 5, 3, [("Lagos", 5)], [("Driver", 5)], [tpA]⟩

def pdayB : Page.WeeklyDayFull :=
  ⟨"2025-12-08", 7, 4, [("Abuja", 7)], [("Nurse", 7)], [tpB]⟩

def pwEx : Page.WeeklyData :=
  ⟨12, 7, [pdayA, pdayB], [("Lagos", 5), ("Abuja", 7)],
    [("Driver", 5), ("Nurse", 7)], some [tpA]⟩

def psEx : Page.SummaryData :=
  ⟨⟨7, 4⟩, ⟨5, 3⟩, ⟨12, 7, [tpB]⟩, ⟨40, 20, [tpB], none, none⟩⟩

def prdEx : Page.RangeData :=
  ⟨42, 21, [pdayA], [("Accra", 42)], [("Pilot", 42)], some [tpB]⟩

def prdEx0 : Page.RangeData :=
  ⟨9, 5, [pdayB], [("Jos", 9)], [("Clerk", 9)], some [tpA]⟩

def stC4 : Page.PageState :=
  ⟨some psEx, some pwEx, some pwEx, .thisWeek, some prdEx, true, false, none,
    "2025-12-01", "2025-12-05"⟩

def stC6 : Page.PageState :=
  ⟨some psEx, some pwEx, none, .today, none, false, false, none, "", ""⟩

def stC9 : Page.PageState :=
  ⟨none, none, none, .thisWeek, none, false, false, none,
    "2025-12-10", "2025-12-01"⟩

def stC10 : Page.PageState :=
  ⟨none, none, none, .thisWeek, some prdEx0, true, false, none,
    "2025-12-01", "2025-12-05"⟩

/-! Helper lemmas shared by the claim theorems. -/

/-- find? over a list whose keys are pairwise distinct locates exactly the
member carrying the target key. -/
theorem find_key_eq_some {α : Type} (key : α → String) (l : List α) (a : α)
    (target : String) (hnd : l.Pairwise (fun x y => key x ≠ key y))
    (hmem : a ∈ l) (hk : key a = target) :
    l.find? (fun d => key d == target) = some a := by
  induction l with
  | nil => cases hmem
  | cons b t ih =>
    rcases List.mem_cons.mp hmem with h | h
    · subst h
      simp [List.find?, hk]
    · have hb : key b ≠ key a := (List.pairwise_cons.mp hnd).1 a h
      have hfb : (key b == target) = false := by
        rw [hk] at hb
        simp [hb]
      simp only [List.find?, hfb]
      exact ih (List.pairwise_cons.mp hnd).2 h

/-- The summary override of getBreakdownsForRange is the identity for ranges
other than thisWeek and thisMonth. -/
theorem applySummaryOverride_not_week_month (summary : Option Api.SummaryData)
    (range : Api.TimeRange) (b : Api.Breakdowns)
    (h1 : range ≠ Api.TimeRange.thisWeek) (h2 : range ≠ Api.TimeRange.thisMonth) :
    Api.applySummaryOverride summary range b = b := by
  cases summary with
  | none => rfl
  | some s =>
    cases range with
    | today => rfl
    | yesterday => rfl
    | thisWeek => exact absurd rfl h1
    | thisMonth => exact absurd rfl h2

/-- The summary override touches only the topPerformers field. -/
theorem applySummaryOverride_preserves (summary : Option Api.SummaryData)
    (range : Api.TimeRange) (b : Api.Breakdowns) :
    (Api.applySummaryOverride summary range b).locationBreakdown =
        b.locationBreakdown ∧
    (Api.applySummaryOverride summary range b).jobTitleBreakdown =
        b.jobTitleBreakdown ∧
    (Api.applySummaryOverride summary range b).trendData = b.trendData := by
  cases summary with
  | none => exact ⟨rfl, rfl, rfl⟩
  | some s =>
    cases range <;>
      cases htw : s.thisWeek.topPerformers <;>
      cases htm : s.thisMonth.topPerformers <;>
      simp [Api.applySummaryOverride, htw, htm]

/-- The drill-down step never changes the trend series. -/
theorem drill_trendData (w : Api.WeeklyData) (b : Api.Breakdowns)
    (target : String) :
    (Api.drill w b target).trendData = b.trendData := by
  unfold Api.drill
  split <;> rfl

/-- Iterated day subtraction adds up. -/
theorem subDays_subDays (d : DateUtil.CivilDate) (m n : Nat) :
    DateUtil.subDays (DateUtil.subDays d m) n = DateUtil.subDays d (m + n) := by
  induction n with
  | zero => rfl
  | succ k ih => simp [DateUtil.subDays, ih, Nat.add_succ]

/-- The number of network calls handleApplyRange issues: none on a validation
failure, exactly one otherwise. -/
theorem handleApplyRange_count (s : Page.PageState)
    (fr : Except String Page.RollupResponse) :
    (Page.handleApplyRange s fr).2 =
      if s.startDate = "" ∨ s.endDate = "" then 0
      else if Page.strLt s.endDate s.startDate = true then 0
      else 1 := by
  unfold Page.handleApplyRange
  by_cases h1 : s.startDate = "" ∨ s.endDate = ""
  · simp [h1]
  · by_cases h3 : Page.strLt s.endDate s.startDate = true
    · simp [h1, h3]
    · cases fr with
      | ok res =>
        by_cases hs : res.success <;> simp [h1, h3, hs]
      | error e => simp [h1, h3]

/-! Claim theorems. -/

/-- Claim C1: for selectedRange today or yesterday with weekly present (the
monthly branch cannot fire for these ranges), a weekly dailyBreakdown entry
whose date equals the computed target date supplies locationBreakdown,
jobTitleBreakdown and topPerformers (from topShortCodes) exactly; when no
entry matches, all three drill-down fields keep the week-level values
unchanged. The embedding is a total function, so no input raises. Dates are
assumed pairwise distinct inside the weekly series, as the data model
guarantees. -/
theorem drilldown_today_yesterday
    (w : Api.WeeklyData) (monthly : Option Api.WeeklyData)
    (summary : Option Api.SummaryData) (range : Api.TimeRange)
    (t y : String) (hr : range = Api.TimeRange.today ∨ range = Api.TimeRange.yesterday)
    (hnd : w.dailyBreakdown.Pairwise (fun a b => a.date ≠ b.date)) :
    (∀ day ∈ w.dailyBreakdown, day.date = Api.drillTarget range t y →
      (Api.getBreakdownsForRange (some w) monthly summary range t y).locationBreakdown
          = day.locationBreakdown ∧
      (Api.getBreakdownsForRange (some w) monthly summary range t y).jobTitleBreakdown
          = day.jobTitleBreakdown ∧
      (Api.getBreakdownsForRange (some w) monthly summary range t y).topPerformers
          = day.topShortCodes) ∧
    ((∀ day ∈ w.dailyBreakdown, day.date ≠ Api.drillTarget range t y) →
      (Api.getBreakdownsForRange (some w) monthly summary range t y).locationBreakdown
          = w.locationBreakdown ∧
      (Api.getBreakdownsForRange (some w) monthly summary range t y).jobTitleBreakdown
          = w.jobTitleBreakdown ∧
      (Api.getBreakdownsForRange (some w) monthly summary range t y).topPerformers
          = w.topPerformers) := by
  have hbase :
      Api.getBreakdownsForRange (some w) monthly summary range t y =
        Api.drill w
          ⟨w.locationBreakdown, w.jobTitleBreakdown, w.topPerformers,
            Api.projectTrend w.dailyBreakdown⟩ (Api.drillTarget range t y) := by
    rcases hr with hr | hr <;> subst hr <;>
      rw [Api.getBreakdownsForRange,
        applySummaryOverride_not_week_month _ _ _ (by decide) (by decide)] <;>
      rfl
  constructor
  · intro day hmem hdate
    have hfind :
        w.dailyBreakdown.find? (fun d => d.date == Api.drillTarget range t y) =
          some day :=
      find_key_eq_some (fun d => d.date) _ day _ hnd hmem hdate
    rw [hbase, Api.drill, hfind]
    exact ⟨rfl, rfl, rfl⟩
  · intro hnone
    have hfind :
        w.dailyBreakdown.find? (fun d => d.date == Api.drillTarget range t y) =
          none := by
      rw [List.find?_eq_none]
      intro d hd
      simpa using hnone d hd
    rw [hbase, Api.drill, hfind]
    exact ⟨rfl, rfl, rfl⟩

/-- Witness for claim C1 at concrete data: today resolves to the matching
day of the weekly series. -/
theorem drilldown_today_yesterday_witness :
    (Api.getBreakdownsForRange (some wEx) none none Api.TimeRange.today
        "2025-12-08" "2025-12-07").locationBreakdown = dayB.locationBreakdown ∧
    (Api.getBreakdownsForRange (some wEx) none none Api.TimeRange.today
        "2025-12-08" "2025-12-07").topPerformers = dayB.topShortCodes := by
  have h := drilldown_today_yesterday wEx none none Api.TimeRange.today
    "2025-12-08" "2025-12-07" (Or.inl rfl) (by decide)
  have h2 := h.1 dayB (by simp [wEx]) (by decide)
  exact ⟨h2.1, h2.2.2⟩

/-- Claim C2: a summary whose thisWeek (respectively thisMonth) record
carries a non-empty topPerformers list determines the resolved topPerformers
exactly for selectedRange thisWeek (respectively thisMonth), whatever weekly
and monthly contain; and for today or yesterday the summary never changes the
resolved topPerformers. -/
theorem summary_topPerformers_override
    (weekly monthly : Option Api.WeeklyData) (s : Api.SummaryData)
    (t y : String) :
    (∀ tp, s.thisWeek.topPerformers = some tp → tp ≠ [] →
      (Api.getBreakdownsForRange weekly monthly (some s)
          Api.TimeRange.thisWeek t y).topPerformers = tp) ∧
    (∀ tp, s.thisMonth.topPerformers = some tp → tp ≠ [] →
      (Api.getBreakdownsForRange weekly monthly (some s)
          Api.TimeRange.thisMonth t y).topPerformers = tp) ∧
    (∀ range, (range = Api.TimeRange.today ∨ range = Api.TimeRange.yesterday) →
      (Api.getBreakdownsForRange weekly monthly (some s) range t y).topPerformers =
        (Api.getBreakdownsForRange weekly monthly none range t y).topPerformers) := by
  refine ⟨?_, ?_, ?_⟩
  · intro tp htp _
    simp [Api.getBreakdownsForRange, Api.applySummaryOverride, htp]
  · intro tp htp _
    simp [Api.getBreakdownsForRange, Api.applySummaryOverride, htp]
  · intro range hr
    rcases hr with hr | hr <;> subst hr <;>
      rw [Api.getBreakdownsForRange, Api.getBreakdownsForRange,
        applySummaryOverride_not_week_month _ _ _ (by decide) (by decide),
        applySummaryOverride_not_week_month _ _ _ (by decide) (by decide)]

/-- Witness for claim C2 at concrete data: the summary thisWeek list
supersedes the weekly-derived list. -/
theorem summary_topPerformers_override_witness :
    (Api.getBreakdownsForRange (some wEx) (some mEx) (some sEx)
        Api.TimeRange.thisWeek "2025-12-08" "2025-12-07").topPerformers = [tpB] :=
  (summary_topPerformers_override (some wEx) (some mEx) sEx
    "2025-12-08" "2025-12-07").1 [tpB] rfl (by simp)

/-- Claim C3 counterexample: with monthly and weekly present but a summary
carrying a thisMonth topPerformers list, the resolved topPerformers for
thisMonth equal the summary list and not the monthly list, so the resolved
topPerformers are not taken from the monthly dataset at this input. -/
theorem thisMonth_monthly_counterexample :
    (Api.getBreakdownsForRange (some wEx) (some mEx) (some sEx)
        Api.TimeRange.thisMonth "2025-12-08" "2025-12-07").topPerformers = [tpB] ∧
    mEx.topPerformers = [tpA] ∧ tpA ≠ tpB := by
  exact ⟨rfl, rfl, by decide⟩

/-- Claim C3 amended: for selectedRange thisMonth with monthly present, the
trend series, locationBreakdown and jobTitleBreakdown always come from the
monthly dataset, and the whole result is independent of the weekly dataset
and of the wall-clock strings; topPerformers also come from monthly unless
the summary carries a thisMonth topPerformers list, in which case that
summary list supersedes them (the override of claim C2). -/
theorem thisMonth_prefers_monthly
    (w wAlt : Option Api.WeeklyData) (m : Api.WeeklyData)
    (summary : Option Api.SummaryData) (t tAlt y yAlt : String) :
    (Api.getBreakdownsForRange w (some m) summary
        Api.TimeRange.thisMonth t y).trendData =
      Api.projectTrend m.dailyBreakdown ∧
    (Api.getBreakdownsForRange w (some m) summary
        Api.TimeRange.thisMonth t y).locationBreakdown = m.locationBreakdown ∧
    (Api.getBreakdownsForRange w (some m) summary
        Api.TimeRange.thisMonth t y).jobTitleBreakdown = m.jobTitleBreakdown ∧
    ((∀ sd, summary = some sd → sd.thisMonth.topPerformers = none) →
      (Api.getBreakdownsForRange w (some m) summary
          Api.TimeRange.thisMonth t y).topPerformers = m.topPerformers) ∧
    Api.getBreakdownsForRange w (some m) summary Api.TimeRange.thisMonth t y =
      Api.getBreakdownsForRange wAlt (some m) summary Api.TimeRange.thisMonth
        tAlt yAlt := by
  have hpres := applySummaryOverride_preserves summary Api.TimeRange.thisMonth
    ⟨m.locationBreakdown, m.jobTitleBreakdown, m.topPerformers,
      Api.projectTrend m.dailyBreakdown⟩
  refine ⟨hpres.2.2, hpres.1, hpres.2.1, ?_, rfl⟩
  intro hnone
  cases summary with
  | none => rfl
  | some sd =>
    have h := hnone sd rfl
    simp [Api.getBreakdownsForRange, Api.applySummaryOverride,
      Api.baseBreakdowns, h]

/-- Witness for the amended claim C3 at concrete data: without a summary, the
thisMonth topPerformers equal the monthly ones. -/
theorem thisMonth_prefers_monthly_witness :
    (Api.getBreakdownsForRange (some wEx) (some mEx) none
        Api.TimeRange.thisMonth "2025-12-08" "2025-12-07").topPerformers =
      mEx.topPerformers :=
  (thisMonth_prefers_monthly (some wEx) (some wEx) mEx none
    "2025-12-08" "2025-12-08" "2025-12-07" "2025-12-07").2.2.2.1
    (fun _ h => Option.noConfusion h)

/-- Claim C4: while a custom range is active (usingRange with a fetched
dataset), the resolved trend series, total clicks, top jobs and both
breakdown maps are all taken wholesale from the custom-range dataset, for
every content of the summary, weekly and monthly slots, which are not
consulted. -/
theorem custom_range_overrides (s : Page.PageState) (rd : Page.RangeData)
    (t y : String) (hu : s.usingRange = true) (hr : s.rangeData = some rd) :
    Page.trendData s t y = rd.dailyBreakdown ∧
    Page.totalClicksForSelectedRange s = rd.totalClicks ∧
    Page.topJobs s = rd.topPerformers.getD [] ∧
    Page.locationBreakdown s t y = rd.locationBreakdown ∧
    Page.jobCategoryBreakdown s t y = rd.jobTitleBreakdown := by
  refine ⟨?_, ?_, ?_, ?_, ?_⟩ <;>
    simp [Page.trendData, Page.totalClicksForSelectedRange, Page.topJobs,
      Page.locationBreakdown, Page.jobCategoryBreakdown, hu, hr]

/-- Witness for claim C4 at concrete data: with all three preset slots
populated, the active custom range still determines every resolved value. -/
theorem custom_range_overrides_witness :
    Page.trendData stC4 "2025-12-08" "2025-12-07" = prdEx.dailyBreakdown ∧
    Page.totalClicksForSelectedRange stC4 = prdEx.totalClicks ∧
    Page.topJobs stC4 = prdEx.topPerformers.getD [] ∧
    Page.locationBreakdown stC4 "2025-12-08" "2025-12-07" =
      prdEx.locationBreakdown ∧
    Page.jobCategoryBreakdown stC4 "2025-12-08" "2025-12-07" =
      prdEx.jobTitleBreakdown :=
  custom_range_overrides stC4 prdEx "2025-12-08" "2025-12-07" rfl rfl

/-- Claim C5: with every dataset slot absent, the api helpers return the zero
totals pair and all-empty breakdowns for every range, and the page-level
derivations return zero and empty values as well; all the embedded functions
are total, so nothing is raised. -/
theorem resolve_all_absent (range : Api.TimeRange) (t y sd ed : String)
    (ur lr : Bool) (er : Option String) :
    Api.getSummaryForRange none range = ⟨0, 0⟩ ∧
    Api.getBreakdownsForRange none none none range t y = ⟨[], [], [], []⟩ ∧
    Page.trendData ⟨none, none, none, range, none, ur, lr, er, sd, ed⟩ t y = [] ∧
    Page.totalClicksForSelectedRange
      ⟨none, none, none, range, none, ur, lr, er, sd, ed⟩ = 0 ∧
    Page.topJobs ⟨none, none, none, range, none, ur, lr, er, sd, ed⟩ = [] ∧
    Page.locationBreakdown
      ⟨none, none, none, range, none, ur, lr, er, sd, ed⟩ t y = [] ∧
    Page.jobCategoryBreakdown
      ⟨none, none, none, range, none, ur, lr, er, sd, ed⟩ t y = [] := by
  cases range <;> cases ur <;> exact ⟨rfl, rfl, rfl, rfl, rfl, rfl, rfl⟩

/-- Claim C6 counterexample: at the page level with selectedRange today, a
weekly series of two days and a matching today string, the resolved trend
series is the single matching day, not the full weekly series, so the claim
that the trend stays the whole-week series fails on the page derivation. -/
theorem trend_full_week_counterexample :
    stC6.weekly = some pwEx ∧
    pwEx.dailyBreakdown = [pdayA, pdayB] ∧
    Page.trendData stC6 "2025-12-08" "2025-12-07" = [pdayB] ∧
    (Page.trendData stC6 "2025-12-08" "2025-12-07").length ≠
      pwEx.dailyBreakdown.length := by
  refine ⟨rfl, rfl, ?_, ?_⟩ <;> decide

/-- Claim C6 amended: for selectedRange today or yesterday with weekly
present (the monthly branch cannot fire for these ranges), the library-level
getBreakdownsForRange keeps the full weekly dailyBreakdown, projected to
date and totalClicks, as the trend series; the page-level trendData instead
narrows the weekly series to the entries whose date equals the selected
day string. -/
theorem trend_today_yesterday
    (w : Api.WeeklyData) (monthly : Option Api.WeeklyData)
    (summary : Option Api.SummaryData) (range : Api.TimeRange) (t y : String)
    (ps : Page.PageState) (pw : Page.WeeklyData)
    (hr : range = Api.TimeRange.today ∨ range = Api.TimeRange.yesterday)
    (hur : ps.usingRange = false) (hw : ps.weekly = some pw) :
    (Api.getBreakdownsForRange (some w) monthly summary range t y).trendData =
      Api.projectTrend w.dailyBreakdown ∧
    (ps.selectedRange = Api.TimeRange.today →
      Page.trendData ps t y =
        pw.dailyBreakdown.filter (fun d => d.date == t)) ∧
    (ps.selectedRange = Api.TimeRange.yesterday →
      Page.trendData ps t y =
        pw.dailyBreakdown.filter (fun d => d.date == y)) := by
  refine ⟨?_, ?_, ?_⟩
  · have hpres := applySummaryOverride_preserves summary range
      (Api.baseBreakdowns (some w) monthly range t y)
    rcases hr with hr | hr <;> subst hr <;>
      rw [Api.getBreakdownsForRange] <;>
      rw [hpres.2.2] <;>
      simp [Api.baseBreakdowns, Api.weeklyBase, drill_trendData]
  · intro hsel
    simp [Page.trendData, hur, hw, hsel]
  · intro hsel
    simp [Page.trendData, hur, hw, hsel]

/-- Witness for the amended claim C6 at concrete data: the library keeps the
two-day weekly trend while the page narrows it to the matching day. -/
theorem trend_today_yesterday_witness :
    (Api.getBreakdownsForRange (some wEx) none none Api.TimeRange.today
        "2025-12-08" "2025-12-07").trendData =
      Api.projectTrend wEx.dailyBreakdown ∧
    Page.trendData stC6 "2025-12-08" "2025-12-07" =
      pwEx.dailyBreakdown.filter (fun d => d.date == "2025-12-08") := by
  have h := trend_today_yesterday wEx none none Api.TimeRange.today
    "2025-12-08" "2025-12-07" stC6 pwEx (Or.inl rfl) rfl rfl
  exact ⟨h.1, h.2.1 rfl⟩

/-- Claim C7: for every reference date the week-range utility returns the
current window from six days before the reference date up to the reference
date and the previous window covering the seven days right before it, both
formatted as YYYY-MM-DD; at the concrete reference 2025-12-08 the windows
are 2025-12-02..2025-12-08 and 2025-11-25..2025-12-01, crossing the month
boundary correctly. -/
theorem getThisWeekAndLastWeekRanges_spec :
    (∀ ref : DateUtil.CivilDate,
      DateUtil.getThisWeekAndLastWeekRanges ref =
        ⟨⟨DateUtil.formatDate (DateUtil.subDays ref 6), DateUtil.formatDate ref⟩,
          ⟨DateUtil.formatDate (DateUtil.subDays ref 13),
            DateUtil.formatDate (DateUtil.subDays ref 7)⟩⟩) ∧
    DateUtil.getThisWeekAndLastWeekRanges ⟨2025, 12, 8⟩ =
      ⟨⟨"2025-12-02", "2025-12-08"⟩, ⟨"2025-11-25", "2025-12-01"⟩⟩ := by
  constructor
  · intro ref
    have h7 : DateUtil.subDays (DateUtil.subDays ref 6) 1 =
        DateUtil.subDays ref 7 := subDays_subDays ref 6 1
    have h13 : DateUtil.subDays (DateUtil.subDays ref 7) 6 =
        DateUtil.subDays ref 13 := subDays_subDays ref 7 6
    simp [DateUtil.getThisWeekAndLastWeekRanges, h7, h13]
  · decide

/-- Claim C8: the week comparison fails whenever either concurrent leg
rejects or resolves with success false, exposing no data from the other leg,
and returns the paired current and previous datasets exactly when both legs
succeed. -/
theorem fetchWeekComparison_all_or_nothing
    (c p : Except String Api.RangeResponse) :
    ((∃ pair, Api.fetchWeekComparison c p = Except.ok pair) ↔
      (∃ cr pr, c = Except.ok cr ∧ p = Except.ok pr ∧
        cr.success = true ∧ pr.success = true)) ∧
    (∀ cr pr, c = Except.ok cr → p = Except.ok pr → cr.success = true →
      pr.success = true →
      Api.fetchWeekComparison c p = Except.ok ⟨cr.data, pr.data⟩) := by
  cases c with
  | error e => simp [Api.fetchWeekComparison]
  | ok cr =>
    cases p with
    | error e => simp [Api.fetchWeekComparison]
    | ok pr =>
      by_cases h1 : cr.success <;> by_cases h2 : pr.success <;>
        simp [Api.fetchWeekComparison, h1, h2]

/-- Witness for claim C8 at concrete data: two successful legs yield the
paired datasets. -/
theorem fetchWeekComparison_all_or_nothing_witness :
    Api.fetchWeekComparison (Except.ok ⟨true, wEx⟩) (Except.ok ⟨true, mEx⟩) =
      Except.ok ⟨wEx, mEx⟩ :=
  (fetchWeekComparison_all_or_nothing (Except.ok ⟨true, wEx⟩)
    (Except.ok ⟨true, mEx⟩)).2 ⟨true, wEx⟩ ⟨true, mEx⟩ rfl rfl rfl rfl

/-- The computable comparison agrees with the String order. -/
theorem strLt_iff (a b : String) : Page.strLt a b = true ↔ a < b := by
  unfold Page.strLt
  rw [decide_eq_true_iff]
  exact String.lt_iff_toList_lt.symm

/-- The computable comparison is false exactly when the order fails. -/
theorem strLt_eq_false_iff (a b : String) :
    Page.strLt a b = false ↔ ¬a < b := by
  rw [← Bool.not_eq_true, strLt_iff]

/-- Claim C9: applying a custom range with a missing date, or with the start
date after the end date under string comparison, fails locally with the
corresponding validation message and issues zero network calls; the fetch is
attempted (exactly one call) precisely when both dates are present and the
start date is not after the end date. -/
theorem handleApplyRange_validation (s : Page.PageState)
    (fr : Except String Page.RollupResponse) :
    (s.startDate = "" ∨ s.endDate = "" →
      (Page.handleApplyRange s fr).2 = 0 ∧
      (Page.handleApplyRange s fr).1.rangeError =
        some "Please select both start and end dates.") ∧
    (s.startDate ≠ "" → s.endDate ≠ "" → s.endDate < s.startDate →
      (Page.handleApplyRange s fr).2 = 0 ∧
      (Page.handleApplyRange s fr).1.rangeError =
        some "Start date cannot be after end date.") ∧
    ((Page.handleApplyRange s fr).2 ≠ 0 ↔
      s.startDate ≠ "" ∧ s.endDate ≠ "" ∧ ¬s.endDate < s.startDate) := by
  refine ⟨?_, ?_, ?_⟩
  · intro h
    constructor
    · rw [handleApplyRange_count]
      simp [h]
    · unfold Page.handleApplyRange
      simp [h]
  · intro h1 h2 h3
    have hb : Page.strLt s.endDate s.startDate = true := (strLt_iff _ _).mpr h3
    constructor
    · rw [handleApplyRange_count]
      simp [h1, h2, hb]
    · unfold Page.handleApplyRange
      simp [h1, h2, hb]
  · rw [handleApplyRange_count, ← strLt_iff]
    by_cases h1 : s.startDate = "" <;> by_cases h2 : s.endDate = "" <;>
      by_cases hb : Page.strLt s.endDate s.startDate = true <;>
      simp [h1, h2, hb]

/-- Witness for claim C9 at concrete data: start 2025-12-10 after end
2025-12-01 fails with the ordering message and zero calls. -/
theorem handleApplyRange_validation_witness :
    (Page.handleApplyRange stC9 (Except.ok ⟨true, prdEx⟩)).2 = 0 ∧
    (Page.handleApplyRange stC9 (Except.ok ⟨true, prdEx⟩)).1.rangeError =
      some "Start date cannot be after end date." :=
  (handleApplyRange_validation stC9 (Except.ok ⟨true, prdEx⟩)).2.1
    (by decide) (by decide) ((strLt_iff _ _).mp (by decide))

/-- Claim C10 counterexample: a custom-range fetch that resolves with success
false clears the previously held custom-range dataset to absent instead of
leaving it unchanged, so the claim fails for the custom-range slot. -/
theorem failed_fetch_slot_counterexample :
    stC10.rangeData = some prdEx0 ∧
    (Page.handleApplyRange stC10 (Except.ok ⟨false, prdEx⟩)).1.rangeData =
      none := by
  exact ⟨rfl, by decide⟩

/-- Claim C10 amended: a failed fetch leaves the summary, weekly and monthly
slots unchanged (a joint throw of the initial fetch leaves the whole state
unchanged, and a per-slot success-false response leaves that slot unchanged);
the custom-range handler never touches those three slots, and a validation
failure leaves the custom-range slot and mode unchanged as well; but a failed
custom-range fetch (rejected, or resolved with success false) clears the
custom-range slot to absent and deactivates custom-range mode. -/
theorem failed_fetch_slots (s : Page.PageState) (e : String)
    (sr : Page.SummaryResponse) (wr mr : Page.RollupResponse)
    (fr : Except String Page.RollupResponse) :
    Page.fetchAll s (Except.error e) = s ∧
    (sr.success = false →
      (Page.fetchAll s (Except.ok (sr, wr, mr))).summary = s.summary) ∧
    (wr.success = false →
      (Page.fetchAll s (Except.ok (sr, wr, mr))).weekly = s.weekly) ∧
    (mr.success = false →
      (Page.fetchAll s (Except.ok (sr, wr, mr))).monthly = s.monthly) ∧
    ((Page.handleApplyRange s fr).1.summary = s.summary ∧
      (Page.handleApplyRange s fr).1.weekly = s.weekly ∧
      (Page.handleApplyRange s fr).1.monthly = s.monthly) ∧
    (s.startDate = "" ∨ s.endDate = "" ∨ s.endDate < s.startDate →
      (Page.handleApplyRange s fr).1.rangeData = s.rangeData ∧
      (Page.handleApplyRange s fr).1.usingRange = s.usingRange) ∧
    (¬(s.startDate = "" ∨ s.endDate = "" ∨ s.endDate < s.startDate) →
      (∀ r, fr = Except.ok r → r.success = false →
        (Page.handleApplyRange s fr).1.rangeData = none ∧
        (Page.handleApplyRange s fr).1.usingRange = false) ∧
      (∀ msg, fr = Except.error msg →
        (Page.handleApplyRange s fr).1.rangeData = none ∧
        (Page.handleApplyRange s fr).1.usingRange = false)) := by
  refine ⟨rfl, ?_, ?_, ?_, ?_, ?_, ?_⟩
  · intro h
    by_cases hw : wr.success <;> by_cases hm : mr.success <;>
      simp [Page.fetchAll, h, hw, hm]
  · intro h
    by_cases hs : sr.success <;> by_cases hm : mr.success <;>
      simp [Page.fetchAll, h, hs, hm]
  · intro h
    by_cases hs : sr.success <;> by_cases hw : wr.success <;>
      simp [Page.fetchAll, h, hs, hw]
  · unfold Page.handleApplyRange
    by_cases h1 : s.startDate = "" ∨ s.endDate = ""
    · simp [h1]
    · by_cases hb : Page.strLt s.endDate s.startDate = true
      · simp [h1, hb]
      · cases fr with
        | ok res => by_cases hs : res.success <;> simp [h1, hb, hs]
        | error m => simp [h1, hb]
  · intro h
    unfold Page.handleApplyRange
    rcases h with h | h | h
    · simp [h]
    · simp [h]
    · have hb : Page.strLt s.endDate s.startDate = true := (strLt_iff _ _).mpr h
      by_cases h1 : s.startDate = "" ∨ s.endDate = ""
      · simp [h1]
      · simp [h1, hb]
  · intro h
    rw [not_or, not_or] at h
    obtain ⟨h1, h2, h3⟩ := h
    have hb : Page.strLt s.endDate s.startDate = false :=
      (strLt_eq_false_iff _ _).mpr h3
    constructor
    · intro r hfr hrs
      subst hfr
      unfold Page.handleApplyRange
      simp [h1, h2, hb, hrs]
    · intro msg hfr
      subst hfr
      unfold Page.handleApplyRange
      simp [h1, h2, hb]

/-- Witness for the amended claim C10 at concrete data: a success-false
summary response leaves the summary slot unchanged, and a success-false
custom-range response clears the custom-range slot and deactivates
custom-range mode. -/
theorem failed_fetch_slots_witness :
    (Page.fetchAll stC10
        (Except.ok (⟨false, psEx⟩, ⟨false, pwEx⟩, ⟨false, pwEx⟩))).summary =
      stC10.summary ∧
    (Page.handleApplyRange stC10 (Except.ok ⟨false, prdEx⟩)).1.rangeData =
      none ∧
    (Page.handleApplyRange stC10 (Except.ok ⟨false, prdEx⟩)).1.usingRange =
      false := by
  have h := failed_fetch_slots stC10 "err" ⟨false, psEx⟩ ⟨false, pwEx⟩
    ⟨false, pwEx⟩ (Except.ok ⟨false, prdEx⟩)
  have hval : ¬(stC10.startDate = "" ∨ stC10.endDate = "" ∨
      stC10.endDate < stC10.startDate) := by
    rw [not_or, not_or]
    exact ⟨by decide, by decide, (strLt_eq_false_iff _ _).mp (by decide)⟩
  have h7 := (h.2.2.2.2.2.2 hval).1 ⟨false, prdEx⟩ rfl rfl
  exact ⟨h.2.1 rfl, h7.1, h7.2⟩
